import Mathlib

/-!
Verification development for the TreeViz OAuth client
(`src/pkce.ts`, `src/constants.ts`, `src/client.ts`, `src/types.ts`, `src/api.ts`).

The TypeScript sources are shallowly embedded:
* JavaScript runtime values crossing the message channel / JSON boundary are
  modelled by `JVal` (null, booleans, numbers, strings, objects), with JS
  truthiness as `JVal.truthy`.
* The `TreeVizOAuth` constructor is `mkTreeVizOAuth : TreeVizOAuthConfig →
  Except String TreeVizOAuthClient` (a thrown `Error` becomes `Except.error`).
* One `signIn` invocation is a small-step machine: after the synchronous
  prelude (PKCE generation + `sessionStorage` writes + popup opening) the
  registered message listener and the closure-poll interval are driven by a
  list of `FlowEvent`s; `stepFlow` is a direct transliteration of the
  `messageHandler` and `checkClosed` callbacks of `signIn`.
* `exchangeCodeWithBackend` (from `api.ts`) is embedded with the `fetch`
  call abstracted as a function argument, and instrumented to also return
  the list of HTTP requests it issues.
-/

set_option linter.unusedVariables false

namespace TreevizOAuth

/-- JavaScript runtime values as they appear on the popup message channel and
in JSON request/response bodies. A missing object property reads as `jnull`
(JS `undefined` and `null` coincide for the truthiness tests the code makes). -/
inductive JVal where
  | jnull : JVal
  | jbool : Bool → JVal
  | jnum : Int → JVal
  | jstr : String → JVal
  | jobj : List (String × JVal) → JVal

mutual

/-- Structural equality test on `JVal` (used only by concrete mocked
endpoints to compare a received request body against the expected one). -/
def JVal.beq : JVal → JVal → Bool
  | .jnull, .jnull => true
  | .jbool a, .jbool b => a == b
  | .jnum a, .jnum b => a == b
  | .jstr a, .jstr b => a == b
  | .jobj fs, .jobj gs => JVal.beqFields fs gs
  | _, _ => false

/-- Structural equality test on `JVal` object field lists. -/
def JVal.beqFields : List (String × JVal) → List (String × JVal) → Bool
  | [], [] => true
  | (k1, v1) :: r1, (k2, v2) :: r2 =>
      k1 == k2 && JVal.beq v1 v2 && JVal.beqFields r1 r2
  | _, _ => false

end

/-- JavaScript truthiness (objects are always truthy; `0`, `""`, `false`,
`null`/`undefined` are falsy). -/
def JVal.truthy : JVal → Bool
  | .jnull => false
  | .jbool b => b
  | .jnum n => n != 0
  | .jstr s => s != ""
  | .jobj _ => true

/-- JS strict equality `v === "s"` against a string literal. -/
def JVal.strictEqStr (v : JVal) (s : String) : Bool :=
  match v with
  | .jstr t => t == s
  | _ => false

/-- JS `String(v)` conversion, used by `new Error(v)` to form the message. -/
def JVal.asString : JVal → String
  | .jnull => "null"
  | .jbool true => "true"
  | .jbool false => "false"
  | .jnum n => toString n
  | .jstr s => s
  | .jobj _ => "[object Object]"

/-- JS property read `v.key`: `jnull` when the property is missing or the
receiver is not an object. -/
def getField (v : JVal) (key : String) : JVal :=
  match v with
  | .jobj fields => (fields.lookup key).getD .jnull
  | _ => .jnull

/-- JS `v || null` (used by the legacy resolve path for optional fields). -/
def jsOrNull (v : JVal) : JVal := if v.truthy then v else .jnull

/-- Truthiness of an optional string-valued config/closure field:
`undefined` and `""` are falsy (`!config.appSecret`-style tests). -/
def optTruthy : Option String → Bool
  | some s => s != ""
  | none => false

/-- JS `o || d` on an optional numeric config field (`0` is falsy, so
`popupWidth: 0` falls back to the default, exactly as in the source). -/
def jsOrNat (o : Option Nat) (d : Nat) : Nat :=
  match o with
  | some n => if n = 0 then d else n
  | none => d

/-- JS `o || d` on an optional string field (`""` is falsy). -/
def jsOrString (o : Option String) (d : String) : String :=
  match o with
  | some s => if s = "" then d else s
  | none => d

/-- The `environment` union type `"production" | "development"` from
`types.ts`. -/
inductive Environment where
  | production : Environment
  | development : Environment
deriving DecidableEq, Repr

/-- `DEFAULT_OAUTH_SCOPES` from `constants.ts`. -/
def DEFAULT_OAUTH_SCOPES : List String := ["email", "profile"]

/-- `TreeVizOAuthConfig` from `types.ts`: optional fields are `Option`s
(`none` = property omitted). -/
structure TreeVizOAuthConfig where
  environment : Option Environment := none
  appId : String
  appSecret : Option String := none
  scopes : Option (List String) := none
  popupWidth : Option Nat := none
  popupHeight : Option Nat := none
  usePKCE : Option Bool := none
  exchangeTokenUrl : Option String := none
deriving DecidableEq, Repr

/-- The private fields of a constructed `TreeVizOAuth` instance
(`client.ts`, class body). -/
structure TreeVizOAuthClient where
  appId : String
  appSecret : Option String
  scopes : List String
  popupWidth : Nat
  popupHeight : Nat
  usePKCE : Bool
  exchangeTokenUrl : Option String
  environment : Environment
deriving DecidableEq, Repr

/-- The PKCE-mode computation `config.usePKCE !== false` (`usePKCE` defaults
to true when the property is omitted). -/
def jsUsePKCE (config : TreeVizOAuthConfig) : Bool :=
  config.usePKCE != some false

/-- The `TreeVizOAuth` constructor (`client.ts`): validates `appId`, then the
mode-required credential, then stores the fields with their defaults. -/
def mkTreeVizOAuth (config : TreeVizOAuthConfig) : Except String TreeVizOAuthClient :=
  if config.appId = "" then
    .error "TreeViz OAuth: appId is required"
  else if !jsUsePKCE config && !optTruthy config.appSecret then
    .error "TreeViz OAuth: appSecret is required when usePKCE is false"
  else if jsUsePKCE config && !optTruthy config.exchangeTokenUrl then
    .error "TreeViz OAuth: exchangeTokenUrl is required when using PKCE flow"
  else
    .ok
      { appId := config.appId
        appSecret := config.appSecret
        scopes := config.scopes.getD DEFAULT_OAUTH_SCOPES
        popupWidth := jsOrNat config.popupWidth 600
        popupHeight := jsOrNat config.popupHeight 700
        usePKCE := jsUsePKCE config
        exchangeTokenUrl := config.exchangeTokenUrl
        environment := config.environment.getD .production }

/-- The public view returned by `getConfig`
(`Omit<Required<TreeVizOAuthConfig>, "appSecret">`). -/
structure PublicConfig where
  environment : Environment
  appId : String
  scopes : List String
  popupWidth : Nat
  popupHeight : Nat
  usePKCE : Bool
  exchangeTokenUrl : String
deriving DecidableEq, Repr

/-- `TreeVizOAuth.getConfig` (`client.ts`): returns every stored field except
`appSecret`; `exchangeTokenUrl` is `this.exchangeTokenUrl || ""`. -/
def TreeVizOAuthClient.getConfig (c : TreeVizOAuthClient) : PublicConfig :=
  { environment := c.environment
    appId := c.appId
    scopes := c.scopes
    popupWidth := c.popupWidth
    popupHeight := c.popupHeight
    usePKCE := c.usePKCE
    exchangeTokenUrl := jsOrString c.exchangeTokenUrl "" }

/-- An HTTP request as issued by `fetch(url, {...})` in `api.ts`. -/
structure FetchRequest where
  url : String
  method : String
  contentType : String
  body : JVal

/-- An HTTP response as observed through the `fetch` API: the status code,
the text body (read by `response.text()` on failure) and the parsed JSON body
(read by `response.json()` on success). -/
structure HttpResponse where
  status : Nat
  textBody : String
  jsonBody : JVal

/-- `Response.ok` of the `fetch` API: status in the range 200-299. -/
def HttpResponse.ok (r : HttpResponse) : Bool :=
  200 ≤ r.status && r.status < 300

/-- The single POST request built by `exchangeCodeWithBackend` in `api.ts`:
`fetch(exchangeUrl, { method: "POST", headers: {...json...}, body:
JSON.stringify({ data: { code, codeVerifier } }) })`. -/
def exchangeRequest (exchangeUrl : String) (code : JVal) (codeVerifier : String) :
    FetchRequest :=
  { url := exchangeUrl
    method := "POST"
    contentType := "application/json"
    body := .jobj [("data", .jobj [("code", code), ("codeVerifier", .jstr codeVerifier)])] }

/-- `exchangeCodeWithBackend` from `api.ts`, with `fetch` abstracted as the
argument `fetchFn`. Instrumented to return the list of requests issued (the
source performs exactly one `fetch` and no retry) together with the outcome:
a thrown `Error` becomes `Except.error` carrying the message the source
builds; on success the value stored under the `result` envelope key is
returned. -/
def exchangeCodeWithBackend (fetchFn : FetchRequest → HttpResponse)
    (exchangeUrl : String) (code : JVal) (codeVerifier : String) :
    List FetchRequest × Except String JVal :=
  let req := exchangeRequest exchangeUrl code codeVerifier
  let response := fetchFn req
  if !response.ok then
    ([req], .error ("Backend token exchange failed (" ++ toString response.status ++
      "): " ++ response.textBody))
  else if !(getField response.jsonBody "result").truthy then
    ([req], .error "Invalid response from backend exchange endpoint")
  else
    ([req], .ok (getField response.jsonBody "result"))

/-- `TreeVizAuthResult` from `types.ts`. Field values are the raw JS values
the code places there (the TS annotations are erased at runtime). -/
structure TreeVizAuthResult where
  token : JVal
  uid : JVal
  email : JVal
  displayName : JVal
  photoURL : JVal

/-- The payload `event.data` of an inbound `message` event, as read by the
`messageHandler` in `signIn` (`client.ts`). Every property the handler may
access is a raw JS value; a property the sender did not include reads as
`jnull` (undefined). -/
structure EventData where
  type : JVal := .jnull
  code : JVal := .jnull
  expiresIn : JVal := .jnull
  token : JVal := .jnull
  uid : JVal := .jnull
  email : JVal := .jnull
  displayName : JVal := .jnull
  photoURL : JVal := .jnull
  error : JVal := .jnull

/-- The environment one `signIn` invocation closes over: the client's mode
and exchange endpoint, the per-invocation `codeVerifier` local (set only in
PKCE mode), and the ambient `fetch`. -/
structure FlowEnv where
  usePKCE : Bool
  exchangeTokenUrl : Option String
  codeVerifier : Option String
  fetchFn : FetchRequest → HttpResponse

/-- Mutable per-invocation resources of one `signIn` call: whether the
`message` listener is registered, whether the `checkClosed` interval is
running, whether the popup window is open, and the settlement of the
pending promise (`none` while pending). -/
structure SignInState where
  listenerActive : Bool
  timerActive : Bool
  popupOpen : Bool
  settled : Option (Except String TreeVizAuthResult)

/-- The two asynchronous event sources driving a pending `signIn`: delivery
of a `message` event (with its `event.data` payload, `none` when the payload
is absent/falsy), and a tick of the `checkClosed` interval observing whether
the popup is closed. -/
inductive FlowEvent where
  | message : Option EventData → FlowEvent
  | pollTick : Bool → FlowEvent

/-- The body of `messageHandler` in `signIn` (`client.ts`): ignore payloads
without a truthy `type`, ignore types other than the two terminal ones; on
`TREEVIZ_AUTH_SUCCESS` tear down (remove listener, clear interval, close
popup) then run the try-block (PKCE exchange, legacy direct token, or throw
"Invalid authentication response", the catch rejecting with the thrown
error); on `TREEVIZ_AUTH_ERROR` tear down and reject with the supplied
error text or the generic fallback. -/
def handleAuthMessage (env : FlowEnv) (s : SignInState) (d : Option EventData) :
    SignInState :=
  match d with
  | none => s
  | some data =>
    if !data.type.truthy then s
    else if !data.type.strictEqStr "TREEVIZ_AUTH_SUCCESS" &&
        !data.type.strictEqStr "TREEVIZ_AUTH_ERROR" then s
    else if data.type.strictEqStr "TREEVIZ_AUTH_SUCCESS" then
      let s1 : SignInState :=
        { s with listenerActive := false, timerActive := false, popupOpen := false }
      if env.usePKCE && data.code.truthy && optTruthy env.codeVerifier then
        match (exchangeCodeWithBackend env.fetchFn (env.exchangeTokenUrl.getD "")
            data.code (env.codeVerifier.getD "")).2 with
        | .error msg => { s1 with settled := some (.error msg) }
        | .ok result =>
            { s1 with settled := some (.ok
                { token := getField result "firebaseToken"
                  uid := getField (getField result "user") "uid"
                  email := getField (getField result "user") "email"
                  displayName := getField (getField result "user") "displayName"
                  photoURL := getField (getField result "user") "photoURL" }) }
      else if !env.usePKCE && data.token.truthy && data.uid.truthy then
        { s1 with settled := some (.ok
            { token := data.token
              uid := data.uid
              email := jsOrNull data.email
              displayName := jsOrNull data.displayName
              photoURL := jsOrNull data.photoURL }) }
      else
        { s1 with settled := some (.error "Invalid authentication response") }
    else
      { s with
          listenerActive := false
          timerActive := false
          popupOpen := false
          settled := some (.error
            (if data.error.truthy then data.error.asString
             else "TreeViz authentication failed")) }

/-- One step of the pending flow. A `message` event reaches `messageHandler`
only while the listener is registered; a `pollTick` runs the `checkClosed`
callback only while the interval is armed, and on observing the popup closed
it clears the interval, removes the listener and rejects with the
cancellation error. -/
def stepFlow (env : FlowEnv) (s : SignInState) : FlowEvent → SignInState
  | .message d =>
      if s.listenerActive then handleAuthMessage env s d else s
  | .pollTick popupClosed =>
      if s.timerActive then
        if popupClosed then
          { s with
              timerActive := false
              listenerActive := false
              popupOpen := false
              settled := some (.error "authError.authenticationCancelled") }
        else s
      else s

/-- The state right after the Promise executor ran (`client.ts`): if
`window.open` returned no handle the promise is rejected at once and nothing
is registered; otherwise the listener is registered and the `checkClosed`
interval started, with the promise pending. -/
def initFlow (popupOpened : Bool) : SignInState :=
  if popupOpened then
    { listenerActive := true, timerActive := true, popupOpen := true, settled := none }
  else
    { listenerActive := false, timerActive := false, popupOpen := false,
      settled := some (.error "Popup blocked. Please allow popups for this site.") }

/-- The asynchronous part of one `signIn` invocation: the Promise executor
followed by any interleaving of message deliveries and interval ticks. -/
def runFlow (env : FlowEnv) (popupOpened : Bool) (events : List FlowEvent) :
    SignInState :=
  events.foldl (stepFlow env) (initFlow popupOpened)

/-- Result of one whole `signIn` invocation: the `sessionStorage` contents it
produced and the final state of its pending promise. -/
structure SignInOutcome where
  sessionStore : List (String × String)
  state : SignInState

/-- One whole `signIn` invocation (`client.ts`): in PKCE mode the prelude
generates the verifier/challenge and stores both in `sessionStorage`
(`pkce_code_verifier`, `pkce_code_challenge`) before the popup opens; no
statement of `signIn` ever removes those entries. Then the popup flow runs. -/
def signIn (env : FlowEnv) (challenge : String) (popupOpened : Bool)
    (events : List FlowEvent) : SignInOutcome :=
  { sessionStore :=
      if env.usePKCE then
        [("pkce_code_verifier", env.codeVerifier.getD ""),
         ("pkce_code_challenge", challenge)]
      else []
    state := runFlow env popupOpened events }

/-- The predicate under which `messageHandler` acts at all: a truthy
`event.data` with a truthy `type` that is strictly equal to one of the two
terminal message types (`client.ts`, the two early returns). -/
def recognizedType (d : Option EventData) : Bool :=
  match d with
  | none => false
  | some data =>
      data.type.truthy &&
        (data.type.strictEqStr "TREEVIZ_AUTH_SUCCESS" ||
         data.type.strictEqStr "TREEVIZ_AUTH_ERROR")

/-- The 64-character base64 alphabet used by `btoa`. -/
def b64Alphabet : String :=
  "ABCDEFGHIJKLMNOPQRSTUVWXYZabcdefghijklmnopqrstuvwxyz0123456789+/"

/-- The base64 character for a 6-bit group. -/
def sextetChar (n : Nat) : Char :=
  b64Alphabet.toList.getD (n % 64) 'A'

/-- Standard base64 encoding of a byte sequence, three bytes to four
characters with `=` padding — the effect of
`btoa(String.fromCharCode(...buffer))` in `pkce.ts`. -/
def b64EncodeChunks : List Nat → List Char
  | [] => []
  | [b1] => [sextetChar (b1 / 4), sextetChar (b1 % 4 * 16), '=', '=']
  | [b1, b2] =>
      [sextetChar (b1 / 4), sextetChar (b1 % 4 * 16 + b2 / 16),
       sextetChar (b2 % 16 * 4), '=']
  | b1 :: b2 :: b3 :: rest =>
      sextetChar (b1 / 4) :: sextetChar (b1 % 4 * 16 + b2 / 16) ::
      sextetChar (b2 % 16 * 4 + b3 / 64) :: sextetChar (b3 % 64) ::
      b64EncodeChunks rest

/-- The per-character effect of
`.replace(/\+/g, "-").replace(/\//g, "_")` in `base64UrlEncode`. -/
def base64UrlChar (c : Char) : Char :=
  if c = '+' then '-' else if c = '/' then '_' else c

/-- `base64UrlEncode` from `pkce.ts`: base64 the bytes, translate `+` and
`/`, strip all `=` padding. -/
def base64UrlEncode (buffer : List Nat) : String :=
  String.mk (((b64EncodeChunks buffer).map base64UrlChar).filter (fun c => c != '='))

/-- `generateCodeVerifier` from `pkce.ts`: base64url-encode 32
cryptographically random bytes. The randomness source
(`crypto.getRandomValues` filling a `Uint8Array(32)`) is abstracted as the
argument: a list of 32 bytes. -/
def generateCodeVerifier (randomBytes : List Nat) : String :=
  base64UrlEncode randomBytes

/-- The character set `[A-Z a-z 0-9 - . _ ~]` demanded of PKCE code
verifiers (RFC 7636), as referenced by the claim. -/
def verifierChar (c : Char) : Bool :=
  (65 ≤ c.toNat && c.toNat ≤ 90) || (97 ≤ c.toNat && c.toNat ≤ 122) ||
  (48 ≤ c.toNat && c.toNat ≤ 57) ||
  c == '-' || c == '.' || c == '_' || c == '~'

/-- Concrete exchange-endpoint URL for the mocked scenarios. -/
def c1Url : String := "https://app.example.com/api/exchangeTreeVizCode"

/-- Concrete PKCE verifier held by the invocation in the mocked scenarios. -/
def c1Verifier : String := "verifier-for-the-mocked-scenario"

/-- The mocked backend's successful response body
`{result:{firebaseToken:"T", user:{uid:"U", email:"e@x.com",
displayName:"D", photoURL:null}}}`. -/
def c1BackendBody : JVal :=
  .jobj [("result", .jobj
    [("firebaseToken", .jstr "T"),
     ("user", .jobj
       [("uid", .jstr "U"), ("email", .jstr "e@x.com"),
        ("displayName", .jstr "D"), ("photoURL", .jnull)])])]

/-- A mocked exchange endpoint: answers 200 with `c1BackendBody` exactly for
the POST of `{data:{code:"abc", codeVerifier:c1Verifier}}` to `c1Url`, and
400 for anything else. -/
def c1Fetch : FetchRequest → HttpResponse := fun req =>
  if req.url == c1Url && req.method == "POST" &&
      JVal.beq req.body (.jobj [("data", .jobj
        [("code", .jstr "abc"), ("codeVerifier", .jstr c1Verifier)])]) then
    { status := 200, textBody := "", jsonBody := c1BackendBody }
  else
    { status := 400, textBody := "unexpected request", jsonBody := .jnull }

/-- The environment of a PKCE-mode `signIn` invocation wired to the mocked
endpoint. -/
def c1Env : FlowEnv :=
  { usePKCE := true
    exchangeTokenUrl := some c1Url
    codeVerifier := some c1Verifier
    fetchFn := c1Fetch }

/-- The popup posting `{type:"TREEVIZ_AUTH_SUCCESS", code:"abc"}`. -/
def c1Events : List FlowEvent :=
  [.message (some
    { type := .jstr "TREEVIZ_AUTH_SUCCESS"
      code := .jstr "abc"
      expiresIn := .jnum 300 })]

/-- A message from unrelated page messaging (unknown discriminant). -/
def unrelatedMessage : Option EventData :=
  some { type := .jstr "webpack-dev-server" }

/-- A PKCE configuration that also supplies the legacy secret. -/
def bothCredentialsConfig : TreeVizOAuthConfig :=
  { appId := "my-app"
    appSecret := some "legacy-secret"
    exchangeTokenUrl := some c1Url }

/-- A PKCE configuration carrying an `appSecret`. -/
def secretConfigA : TreeVizOAuthConfig :=
  { appId := "my-app"
    appSecret := some "secret-a"
    exchangeTokenUrl := some c1Url }

/-- The same configuration with the `appSecret` omitted. -/
def secretConfigB : TreeVizOAuthConfig :=
  { appId := "my-app"
    appSecret := none
    exchangeTokenUrl := some c1Url }

/-- The instance the constructor builds from `secretConfigA`. -/
def secretClientA : TreeVizOAuthClient :=
  { appId := "my-app"
    appSecret := some "secret-a"
    scopes := ["email", "profile"]
    popupWidth := 600
    popupHeight := 700
    usePKCE := true
    exchangeTokenUrl := some c1Url
    environment := .production }

/-- The instance the constructor builds from `secretConfigB`. -/
def secretClientB : TreeVizOAuthClient :=
  { secretClientA with appSecret := none }

/-- The public projection of a configuration: what `getConfig` reports for
any successfully constructed instance (computed from every configuration
field except `appSecret`). -/
def publicOf (config : TreeVizOAuthConfig) : PublicConfig :=
  { environment := config.environment.getD .production
    appId := config.appId
    scopes := config.scopes.getD DEFAULT_OAUTH_SCOPES
    popupWidth := jsOrNat config.popupWidth 600
    popupHeight := jsOrNat config.popupHeight 700
    usePKCE := config.usePKCE != some false
    exchangeTokenUrl := jsOrString config.exchangeTokenUrl "" }

/-- Resource invariant of one pending `signIn`: whenever the promise is
settled, the message listener has been removed and the closure-poll interval
cleared. -/
def flowInv (s : SignInState) : Prop :=
  s.settled.isSome = true → (s.listenerActive = false ∧ s.timerActive = false)

/-! ## Helper lemmas about the flow machine -/

theorem stepFlow_cases (env : FlowEnv) (s : SignInState) (e : FlowEvent) :
    stepFlow env s e = s ∨
      ((stepFlow env s e).listenerActive = false ∧
       (stepFlow env s e).timerActive = false ∧
       (stepFlow env s e).settled.isSome = true) := by
  cases e with
  | message d =>
    by_cases hl : s.listenerActive
    · simp only [stepFlow, hl, if_true]
      cases d with
      | none => exact Or.inl rfl
      | some data =>
        unfold handleAuthMessage
        repeat' split
        all_goals first
          | exact Or.inl rfl
          | exact Or.inr ⟨rfl, rfl, rfl⟩
    · simp only [stepFlow, hl, if_false]
      exact Or.inl rfl
  | pollTick popupClosed =>
    simp only [stepFlow]
    repeat' split
    all_goals first
      | exact Or.inl rfl
      | exact Or.inr ⟨rfl, rfl, rfl⟩

theorem stepFlow_absorb (env : FlowEnv) (s : SignInState) (e : FlowEvent)
    (hl : s.listenerActive = false) (ht : s.timerActive = false) :
    stepFlow env s e = s := by
  cases e with
  | message d => simp [stepFlow, hl]
  | pollTick popupClosed => simp [stepFlow, ht]

theorem stepFlow_inv (env : FlowEnv) (s : SignInState) (e : FlowEvent)
    (h : flowInv s) : flowInv (stepFlow env s e) := by
  rcases stepFlow_cases env s e with heq | ⟨h1, h2, _⟩
  · rw [heq]; exact h
  · intro _; exact ⟨h1, h2⟩

theorem foldl_inv (env : FlowEnv) (events : List FlowEvent) (s : SignInState)
    (h : flowInv s) : flowInv (events.foldl (stepFlow env) s) := by
  induction events generalizing s with
  | nil => exact h
  | cons e rest ih => exact ih (stepFlow env s e) (stepFlow_inv env s e h)

theorem runFlow_inv (env : FlowEnv) (popupOpened : Bool) (events : List FlowEvent) :
    flowInv (runFlow env popupOpened events) := by
  apply foldl_inv
  unfold flowInv initFlow
  cases popupOpened <;> simp

theorem foldl_fixed (env : FlowEnv) (s : SignInState)
    (hl : s.listenerActive = false) (ht : s.timerActive = false) :
    ∀ events : List FlowEvent, events.foldl (stepFlow env) s = s
  | [] => rfl
  | e :: rest => by
      rw [List.foldl_cons, stepFlow_absorb env s e hl ht]
      exact foldl_fixed env s hl ht rest

/-! ## Claim theorems -/

/-- C1: In PKCE mode, for a signIn invocation where the popup posts
`{type:"TREEVIZ_AUTH_SUCCESS", code:"abc"}` and the configured exchange
endpoint responds with a 2xx status and body `{result:{firebaseToken:"T",
user:{uid:"U", email:"e@x.com", displayName:"D", photoURL:null}}}`, the
pending signIn promise resolves to exactly `{token:"T", uid:"U",
email:"e@x.com", displayName:"D", photoURL:null}`. -/
theorem pkce_success_flow_resolves_normalized :
    (signIn c1Env "challenge-abc" true c1Events).state.settled =
      some (.ok
        { token := .jstr "T"
          uid := .jstr "U"
          email := .jstr "e@x.com"
          displayName := .jstr "D"
          photoURL := .jnull }) := rfl

/-- C2: On every exit path of a `signIn` invocation, teardown (listener
removal and timer clearing) has been performed whenever the pending promise
is settled, and a settled state is absorbing: every further message or poll
event leaves the state unchanged, so exactly one terminal transition settles
the promise and no listener or timer remains registered afterwards. -/
theorem signIn_teardown_before_settlement (env : FlowEnv) (popupOpened : Bool)
    (events : List FlowEvent)
    (h : (runFlow env popupOpened events).settled.isSome = true) :
    (runFlow env popupOpened events).listenerActive = false ∧
    (runFlow env popupOpened events).timerActive = false ∧
    ∀ e, stepFlow env (runFlow env popupOpened events) e =
      runFlow env popupOpened events := by
  have hinv := runFlow_inv env popupOpened events h
  exact ⟨hinv.1, hinv.2, fun e => stepFlow_absorb env _ e hinv.1 hinv.2⟩

/-- Witness for C2 at a concrete settled trace (the successful PKCE flow). -/
theorem signIn_teardown_before_settlement_witness :
    (runFlow c1Env true c1Events).settled.isSome = true ∧
    (runFlow c1Env true c1Events).listenerActive = false ∧
    (runFlow c1Env true c1Events).timerActive = false ∧
    stepFlow c1Env (runFlow c1Env true c1Events) (.pollTick true) =
      runFlow c1Env true c1Events :=
  ⟨rfl, (signIn_teardown_before_settlement c1Env true c1Events rfl).1,
    (signIn_teardown_before_settlement c1Env true c1Events rfl).2.1,
    (signIn_teardown_before_settlement c1Env true c1Events rfl).2.2 (.pollTick true)⟩

/-- C5: An inbound message whose payload is absent, lacks a `type`, or whose
`type` is neither of the two terminal discriminants leaves the flow state
completely unchanged: the promise is not settled, the listener stays
registered, the timer keeps running and the popup stays open. -/
theorem unrecognized_message_ignored (env : FlowEnv) (s : SignInState)
    (d : Option EventData) (h : recognizedType d = false) :
    stepFlow env s (.message d) = s := by
  cases d with
  | none =>
    by_cases hl : s.listenerActive <;>
      simp [stepFlow, handleAuthMessage, hl]
  | some data =>
    unfold recognizedType at h
    by_cases hl : s.listenerActive
    · simp only [stepFlow, hl, if_true]
      unfold handleAuthMessage
      by_cases htr : data.type.truthy
      · simp only [htr, Bool.true_and, Bool.or_eq_false_iff] at h
        simp [htr, h.1, h.2]
      · simp [htr]
    · simp [stepFlow, hl]

/-- Witness for C5: a message from unrelated browser messaging is ignored by
a freshly started flow. -/
theorem unrecognized_message_ignored_witness :
    recognizedType unrelatedMessage = false ∧
    stepFlow c1Env (initFlow true) (.message unrelatedMessage) = initFlow true :=
  ⟨rfl, unrecognized_message_ignored c1Env (initFlow true) unrelatedMessage rfl⟩

/-- C6: If opening the popup yields no window handle, `signIn` rejects
immediately with the popup-blocked error, and for any sequence of later
events no message listener and no closure-poll timer is ever registered. -/
theorem popup_blocked_rejects_without_registration (env : FlowEnv)
    (events : List FlowEvent) :
    runFlow env false events =
      { listenerActive := false
        timerActive := false
        popupOpen := false
        settled := some (.error "Popup blocked. Please allow popups for this site.") } :=
  foldl_fixed env (initFlow false) rfl rfl events

/-- C9 counterexample: on the successful PKCE trace, the promise is settled
yet both session-storage entries written by `signIn` are still present
(nothing in `signIn` ever removes them), so the verifier and challenge do
outlive the flow. -/
theorem pkce_storage_outlives_flow :
    (signIn c1Env "challenge-abc" true c1Events).state.settled.isSome = true ∧
    (signIn c1Env "challenge-abc" true c1Events).sessionStore.lookup
      "pkce_code_verifier" = some c1Verifier ∧
    (signIn c1Env "challenge-abc" true c1Events).sessionStore.lookup
      "pkce_code_challenge" = some "challenge-abc" :=
  ⟨rfl, rfl, rfl⟩

/-- C9 amended: in PKCE mode the verifier and challenge are written to the
session-scoped storage before the popup opens, and those entries are never
removed by the flow — they persist (for every event sequence, hence also
after the promise settles) until overwritten by a later invocation or the
session ends. -/
theorem pkce_storage_persists (env : FlowEnv) (challenge : String)
    (popupOpened : Bool) (events : List FlowEvent) (h : env.usePKCE = true) :
    (signIn env challenge popupOpened events).sessionStore.lookup
      "pkce_code_verifier" = some (env.codeVerifier.getD "") ∧
    (signIn env challenge popupOpened events).sessionStore.lookup
      "pkce_code_challenge" = some challenge := by
  simp only [signIn, h, if_true]
  exact ⟨rfl, rfl⟩

/-- Witness for the amended C9 on a concrete invocation. -/
theorem pkce_storage_persists_witness :
    c1Env.usePKCE = true ∧
    (signIn c1Env "ch" false []).sessionStore.lookup "pkce_code_verifier" =
      some (c1Env.codeVerifier.getD "") ∧
    (signIn c1Env "ch" false []).sessionStore.lookup "pkce_code_challenge" =
      some "ch" :=
  ⟨rfl, (pkce_storage_persists c1Env "ch" false [] rfl).1,
    (pkce_storage_persists c1Env "ch" false [] rfl).2⟩

theorem mk_isOk_eq (config : TreeVizOAuthConfig) :
    (mkTreeVizOAuth config).isOk =
      (config.appId != "" &&
       (!jsUsePKCE config || optTruthy config.exchangeTokenUrl) &&
       (jsUsePKCE config || optTruthy config.appSecret)) := by
  unfold mkTreeVizOAuth
  by_cases h1 : config.appId = ""
  · simp [h1, Except.isOk, Except.toBool]
  · by_cases h2 : jsUsePKCE config
    · by_cases h3 : optTruthy config.exchangeTokenUrl
      · simp [h1, h2, h3, Except.isOk, Except.toBool, bne_iff_ne]
      · simp [h1, h2, h3, Except.isOk, Except.toBool, bne_iff_ne]
    · by_cases h4 : optTruthy config.appSecret
      · simp [h1, h2, h4, Except.isOk, Except.toBool, bne_iff_ne]
      · simp [h1, h2, h4, Except.isOk, Except.toBool, bne_iff_ne]

/-- C4: The constructor rejects exactly the configurations with an empty
appId, or PKCE mode (explicit or defaulted) without exchangeTokenUrl, or
legacy mode without appSecret; every configuration passing all three checks
constructs successfully. -/
theorem mk_validation_characterization (config : TreeVizOAuthConfig) :
    (mkTreeVizOAuth config).isOk =
      (config.appId != "" &&
       (!jsUsePKCE config || optTruthy config.exchangeTokenUrl) &&
       (jsUsePKCE config || optTruthy config.appSecret)) :=
  mk_isOk_eq config

/-- C3 counterexample: a PKCE-mode configuration supplying both
`exchangeTokenUrl` and `appSecret` violates the claimed exactly-one
invariant, yet the constructor does not throw. -/
theorem mk_both_credentials_constructs :
    optTruthy bothCredentialsConfig.appSecret = true ∧
    optTruthy bothCredentialsConfig.exchangeTokenUrl = true ∧
    jsUsePKCE bothCredentialsConfig = true ∧
    (mkTreeVizOAuth bothCredentialsConfig).isOk = true :=
  ⟨rfl, rfl, rfl, rfl⟩

/-- C3 amended: construction only enforces presence of the mode-required
credential (exchangeTokenUrl under PKCE, appSecret under legacy); it never
rejects a configuration for additionally supplying the other credential — any
configuration with a non-empty appId and both credentials present constructs
successfully. -/
theorem mk_mode_credential_sufficient (config : TreeVizOAuthConfig)
    (h1 : config.appId ≠ "")
    (h2 : optTruthy config.exchangeTokenUrl = true)
    (h3 : optTruthy config.appSecret = true) :
    (mkTreeVizOAuth config).isOk = true := by
  rw [mk_isOk_eq config, h2, h3]
  simp [h1]

/-- Witness for the amended C3. -/
theorem mk_mode_credential_sufficient_witness :
    bothCredentialsConfig.appId ≠ "" ∧
    optTruthy bothCredentialsConfig.exchangeTokenUrl = true ∧
    optTruthy bothCredentialsConfig.appSecret = true ∧
    (mkTreeVizOAuth bothCredentialsConfig).isOk = true :=
  ⟨by decide, rfl, rfl,
    mk_mode_credential_sufficient bothCredentialsConfig (by decide) rfl rfl⟩

/-- C7: `exchangeCodeWithBackend` issues exactly one POST request carrying
`{data:{code, codeVerifier}}`, fails (with no retry) precisely when the
response status is not 2xx or the parsed body lacks a truthy `result`
envelope, and otherwise returns the value stored under `result`. -/
theorem exchange_single_post_and_envelope (fetchFn : FetchRequest → HttpResponse)
    (exchangeUrl : String) (code : JVal) (codeVerifier : String) :
    (exchangeCodeWithBackend fetchFn exchangeUrl code codeVerifier).1 =
      [exchangeRequest exchangeUrl code codeVerifier] ∧
    (exchangeCodeWithBackend fetchFn exchangeUrl code codeVerifier).2.isOk =
      ((fetchFn (exchangeRequest exchangeUrl code codeVerifier)).ok &&
       (getField (fetchFn (exchangeRequest exchangeUrl code codeVerifier)).jsonBody
         "result").truthy) ∧
    (exchangeCodeWithBackend fetchFn exchangeUrl code codeVerifier).2.toOption =
      (if ((fetchFn (exchangeRequest exchangeUrl code codeVerifier)).ok &&
           (getField (fetchFn (exchangeRequest exchangeUrl code codeVerifier)).jsonBody
             "result").truthy) = true
       then some (getField
         (fetchFn (exchangeRequest exchangeUrl code codeVerifier)).jsonBody "result")
       else none) := by
  unfold exchangeCodeWithBackend
  by_cases hok : (fetchFn (exchangeRequest exchangeUrl code codeVerifier)).ok
  · by_cases htr : (getField
        (fetchFn (exchangeRequest exchangeUrl code codeVerifier)).jsonBody
        "result").truthy
    · simp [hok, htr, Except.isOk, Except.toBool, Except.toOption]
    · simp [hok, htr, Except.isOk, Except.toBool, Except.toOption]
  · simp [hok, Except.isOk, Except.toBool, Except.toOption]

theorem mk_ok_getConfig (config : TreeVizOAuthConfig) (cl : TreeVizOAuthClient)
    (h : mkTreeVizOAuth config = .ok cl) : cl.getConfig = publicOf config := by
  unfold mkTreeVizOAuth at h
  split at h
  · exact absurd h (by simp)
  · split at h
    · exact absurd h (by simp)
    · split at h
      · exact absurd h (by simp)
      · injection h with h
        rw [← h]
        rfl

/-- C10: `getConfig` never reveals the application secret — the result
returned for two instances constructed from configurations that differ only
in `appSecret` is identical (and the returned record has no appSecret
field). -/
theorem getConfig_secret_noninterference (c1 c2 : TreeVizOAuthConfig)
    (hsame : { c1 with appSecret := none } = { c2 with appSecret := none })
    (cl1 cl2 : TreeVizOAuthClient)
    (h1 : mkTreeVizOAuth c1 = .ok cl1) (h2 : mkTreeVizOAuth c2 = .ok cl2) :
    cl1.getConfig = cl2.getConfig := by
  rw [mk_ok_getConfig c1 cl1 h1, mk_ok_getConfig c2 cl2 h2]
  have e1 : publicOf { c1 with appSecret := none } = publicOf c1 := rfl
  have e2 : publicOf { c2 with appSecret := none } = publicOf c2 := rfl
  rw [← e1, hsame, e2]

/-- Witness for C10: two concrete configurations differing only in the
secret yield instances whose `getConfig` agree. -/
theorem getConfig_secret_noninterference_witness :
    mkTreeVizOAuth secretConfigA = .ok secretClientA ∧
    mkTreeVizOAuth secretConfigB = .ok secretClientB ∧
    secretClientA.getConfig = secretClientB.getConfig :=
  ⟨rfl, rfl,
    getConfig_secret_noninterference secretConfigA secretConfigB rfl
      secretClientA secretClientB rfl rfl⟩

theorem b64url_sextet_ne (k : Nat) :
    (base64UrlChar (sextetChar k) != '=') = true := by
  have h : k % 64 < 64 := Nat.mod_lt _ (by norm_num)
  have hall : ∀ m, m < 64 →
      (base64UrlChar (b64Alphabet.toList.getD m 'A') != '=') = true := by decide
  exact hall (k % 64) h

theorem b64url_sextet_verifier (k : Nat) :
    verifierChar (base64UrlChar (sextetChar k)) = true := by
  have h : k % 64 < 64 := Nat.mod_lt _ (by norm_num)
  have hall : ∀ m, m < 64 →
      verifierChar (base64UrlChar (b64Alphabet.toList.getD m 'A')) = true := by decide
  exact hall (k % 64) h

theorem b64url_pad_eq : base64UrlChar '=' = '=' := by decide

theorem b64url_filtered_length : ∀ bytes : List Nat,
    (((b64EncodeChunks bytes).map base64UrlChar).filter (fun c => c != '=')).length =
      (bytes.length * 4 + 2) / 3
  | [] => by simp [b64EncodeChunks]
  | [b1] => by
      simp [b64EncodeChunks, List.filter_cons, b64url_sextet_ne, b64url_pad_eq]
  | [b1, b2] => by
      simp [b64EncodeChunks, List.filter_cons, b64url_sextet_ne, b64url_pad_eq]
  | b1 :: b2 :: b3 :: rest => by
      have ih := b64url_filtered_length rest
      simp [b64EncodeChunks, List.filter_cons, b64url_sextet_ne, ih]
      omega

theorem b64url_filtered_all : ∀ bytes : List Nat,
    (((b64EncodeChunks bytes).map base64UrlChar).filter
      (fun c => c != '=')).all verifierChar = true
  | [] => by simp [b64EncodeChunks]
  | [b1] => by
      simp [b64EncodeChunks, List.filter_cons, b64url_sextet_ne, b64url_pad_eq,
        b64url_sextet_verifier]
  | [b1, b2] => by
      simp [b64EncodeChunks, List.filter_cons, b64url_sextet_ne, b64url_pad_eq,
        b64url_sextet_verifier]
  | b1 :: b2 :: b3 :: rest => by
      have ih := b64url_filtered_all rest
      simp [b64EncodeChunks, List.filter_cons, b64url_sextet_ne,
        b64url_sextet_verifier, ih]

/-- C8: Every string produced by `generateCodeVerifier` from its 32 random
bytes has length between 43 and 128 and uses only characters from the set
`[A-Za-z0-9-._~]` (in fact the length is always exactly 43). -/
theorem verifier_length_and_alphabet (randomBytes : List Nat)
    (hlen : randomBytes.length = 32)
    (hbytes : randomBytes.all (fun b => b < 256) = true) :
    43 ≤ (generateCodeVerifier randomBytes).length ∧
    (generateCodeVerifier randomBytes).length ≤ 128 ∧
    (generateCodeVerifier randomBytes).toList.all verifierChar = true := by
  have hl := b64url_filtered_length randomBytes
  have ha := b64url_filtered_all randomBytes
  have hs : (generateCodeVerifier randomBytes).length =
      (((b64EncodeChunks randomBytes).map base64UrlChar).filter
        (fun c => c != '=')).length := rfl
  have ht : (generateCodeVerifier randomBytes).toList =
      ((b64EncodeChunks randomBytes).map base64UrlChar).filter
        (fun c => c != '=') := rfl
  rw [hs, hl, hlen, ht]
  exact ⟨by norm_num, by norm_num, ha⟩

/-- Witness for C8 on a concrete 32-byte input. -/
theorem verifier_length_and_alphabet_witness :
    (List.replicate 32 0).length = 32 ∧
    (List.replicate 32 0).all (fun b => b < 256) = true ∧
    43 ≤ (generateCodeVerifier (List.replicate 32 0)).length ∧
    (generateCodeVerifier (List.replicate 32 0)).length ≤ 128 ∧
    (generateCodeVerifier (List.replicate 32 0)).toList.all verifierChar = true :=
  ⟨rfl, by decide,
    (verifier_length_and_alphabet (List.replicate 32 0) rfl (by decide)).1,
    (verifier_length_and_alphabet (List.replicate 32 0) rfl (by decide)).2.1,
    (verifier_length_and_alphabet (List.replicate 32 0) rfl (by decide)).2.2⟩

end TreevizOAuth
